import Mathlib

/-!
Shallow embedding of the diagnostic orchestrator of the AIYE backend
(`services/DiagnosticService.js`) together with the health-score constraint of
the organ schema (`models/Organ.js`).

Modelling conventions:
* JavaScript numbers are modelled as exact rationals (`ℚ`); every numeric
  comparison and arithmetic step of the source is exact on the values the
  service actually handles.
* JavaScript objects (the metrics payloads, the diagnosis objects and the
  `Map` used as cache) are modelled as insertion-ordered association lists;
  property assignment / `Map.set` replaces an existing key in place and
  appends a fresh key, exactly like JavaScript.
* `Date.now()` is an `Int` supplied by the caller, `new Date().toDateString()`
  and `toISOString()` are opaque strings supplied by the caller.
* The Gemini network call is an oracle (`AIOutcome`): either a transport-level
  error (the promise rejects) or a raw response text.
* Rational arithmetic helpers (`ratMul`, `ratSub`, `ratDiv`) are written in
  num/den normal form so that they evaluate inside the kernel; lemmas below
  prove they agree with the ordinary `ℚ` operations.
-/

/-- Model of a JavaScript JSON value (the payloads handled by the service). -/
inductive Json where
  | null : Json
  | bool (b : Bool) : Json
  | num (q : ℚ) : Json
  | str (s : String) : Json
  | arr (xs : List Json) : Json
  | obj (fields : List (String × Json)) : Json

/-- A JavaScript object / `Map` content: insertion-ordered key/value pairs. -/
def JsObj := List (String × Json)

/-- Property read (`o[k]`): first binding for the key, `none` = `undefined`. -/
def mapGet {α : Type} (m : List (String × α)) (k : String) : Option α :=
  match m with
  | [] => none
  | (k', v) :: rest => if k' = k then some v else mapGet rest k

/-- Property write / `Map.set`: replace an existing key in place, else append
(JavaScript insertion-order semantics). -/
def mapSet {α : Type} (m : List (String × α)) (k : String) (v : α) :
    List (String × α) :=
  match m with
  | [] => [(k, v)]
  | (k', v') :: rest =>
      if k' = k then (k, v) :: rest else (k', v') :: mapSet rest k v

/-! ### Exact rational arithmetic in kernel-evaluable normal form -/

/-- Multiplication on `ℚ` written in num/den normal form. -/
def ratMul (a b : ℚ) : ℚ := mkRat (a.num * b.num) (a.den * b.den)

/-- Subtraction on `ℚ` written in num/den normal form. -/
def ratSub (a b : ℚ) : ℚ :=
  mkRat (a.num * (b.den : ℤ) - b.num * (a.den : ℤ)) (a.den * b.den)

/-- Reciprocal on `ℚ` written in num/den normal form. -/
def ratInv (a : ℚ) : ℚ :=
  if a.num < 0 then mkRat (-(a.den : ℤ)) a.num.natAbs
  else mkRat (a.den : ℤ) a.num.natAbs

/-- Division on `ℚ` written in num/den normal form. -/
def ratDiv (a b : ℚ) : ℚ := ratMul a (ratInv b)

/-- JavaScript `Math.round` on the exact rational value: round half toward
positive infinity, i.e. `⌊q + 1/2⌋`, computed with integer floor division. -/
def jsRound (q : ℚ) : ℤ := Int.fdiv (2 * q.num + (q.den : ℤ)) (2 * (q.den : ℤ))

/-! ### JavaScript number formatting (exact on the decimal values the service
handles; `fracDigits` prints the finite decimal expansion the way the host
prints the floats that arise here) -/

/-- Hexadecimal digit character (lower case). -/
def hexDigitChar (n : Nat) : Char :=
  if n < 10 then Char.ofNat (48 + n) else Char.ofNat (97 + n - 10)

/-- Digits of the decimal expansion of `rem / den` (long division), stopping
at a zero remainder; `fuel` bounds the number of emitted digits. -/
def fracDigits : Nat → Nat → Nat → List Char
  | 0, _, _ => []
  | Nat.succ fuel, rem, den =>
      if rem = 0 then []
      else
        Char.ofNat (48 + rem * 10 / den) :: fracDigits fuel (rem * 10 % den) den

/-- Chunks of three characters, starting from the head. -/
def chunksOf3 : List Char → List (List Char)
  | [] => []
  | [a] => [[a]]
  | [a, b] => [[a, b]]
  | a :: b :: c :: rest => [a, b, c] :: chunksOf3 rest

/-- Thousands grouping of a natural number, as `Number.prototype.toLocaleString`
renders the integer part in an en-US locale (e.g. `1500 ↦ "1,500"`). -/
def localeNat (n : Nat) : String :=
  let groups := (chunksOf3 (toString n).data.reverse).map List.reverse
  String.mk (List.intercalate [','] groups.reverse)

/-- Model of `Number.prototype.toLocaleString` on the numbers this service
formats. -/
def jsToLocaleString (q : ℚ) : String :=
  let sign := if q.num < 0 then "-" else ""
  let intAbs := q.num.natAbs / q.den
  let frac := fracDigits 20 (q.num.natAbs % q.den) q.den
  sign ++ localeNat intAbs ++ (if frac.isEmpty then "" else "." ++ String.mk frac)

/-- Model of the default JavaScript number-to-string conversion (used by
template interpolation and `JSON.stringify`). -/
def jsNumToString (q : ℚ) : String :=
  let sign := if q.num < 0 then "-" else ""
  let intAbs := q.num.natAbs / q.den
  let frac := fracDigits 20 (q.num.natAbs % q.den) q.den
  sign ++ toString intAbs ++ (if frac.isEmpty then "" else "." ++ String.mk frac)

/-- Model of `Number.prototype.toFixed`: round to `d` decimals, ties toward
positive infinity, then print with exactly `d` fractional digits. -/
def jsToFixed (q : ℚ) (d : Nat) : String :=
  let scaled : ℤ :=
    Int.fdiv (2 * q.num * (10 : ℤ) ^ d + (q.den : ℤ)) (2 * (q.den : ℤ))
  let sign := if scaled < 0 then "-" else ""
  let s := toString scaled.natAbs
  let s := if s.length < d + 1 then
      String.mk (List.replicate (d + 1 - s.length) '0') ++ s
    else s
  if d = 0 then sign ++ s
  else sign ++ String.mk (s.data.take (s.length - d)) ++ "." ++
    String.mk (s.data.drop (s.length - d))

/-! ### `JSON.stringify` -/

/-- Opening brace character, kept as a named constant. -/
def braceL : Char := Char.ofNat 123

/-- Closing brace character, kept as a named constant. -/
def braceR : Char := Char.ofNat 125

/-- Double-quote character. -/
def quoteC : Char := Char.ofNat 34

/-- Backslash character. -/
def backslashC : Char := Char.ofNat 92

/-- JSON escaping of one character, as `JSON.stringify` performs it. -/
def escapeJsonChar (c : Char) : List Char :=
  if c = quoteC then [backslashC, quoteC]
  else if c = backslashC then [backslashC, backslashC]
  else if c = Char.ofNat 8 then [backslashC, 'b']
  else if c = Char.ofNat 9 then [backslashC, 't']
  else if c = Char.ofNat 10 then [backslashC, 'n']
  else if c = Char.ofNat 12 then [backslashC, 'f']
  else if c = Char.ofNat 13 then [backslashC, 'r']
  else if c.toNat < 32 then
    [backslashC, 'u', '0', '0', hexDigitChar (c.toNat / 16),
      hexDigitChar (c.toNat % 16)]
  else [c]

/-- JSON string literal (quotes plus escaping), as `JSON.stringify` emits it. -/
def quoteJsonString (s : String) : String :=
  String.mk (quoteC :: s.data.flatMap escapeJsonChar ++ [quoteC])

mutual

/-- Model of `JSON.stringify` on a JSON value. -/
def stringifyVal : Json → String
  | Json.null => "null"
  | Json.bool true => "true"
  | Json.bool false => "false"
  | Json.num q => jsNumToString q
  | Json.str s => quoteJsonString s
  | Json.arr xs => "[" ++ stringifyArr xs ++ "]"
  | Json.obj fs => String.mk [braceL] ++ stringifyFields fs ++ String.mk [braceR]

/-- Comma-joined serialization of array elements. -/
def stringifyArr : List Json → String
  | [] => ""
  | [x] => stringifyVal x
  | x :: y :: rest => stringifyVal x ++ "," ++ stringifyArr (y :: rest)

/-- Comma-joined serialization of object members. -/
def stringifyFields : List (String × Json) → String
  | [] => ""
  | [(k, v)] => quoteJsonString k ++ ":" ++ stringifyVal v
  | (k, v) :: p :: rest =>
      quoteJsonString k ++ ":" ++ stringifyVal v ++ "," ++
        stringifyFields (p :: rest)

end

/-! ### `JSON.parse` (recursive-descent parser for the JSON grammar) -/

/-- JSON whitespace. -/
def isJsonWs (c : Char) : Bool :=
  c = ' ' || c = Char.ofNat 9 || c = Char.ofNat 10 || c = Char.ofNat 13

/-- Skip JSON whitespace. -/
def skipWs (cs : List Char) : List Char := cs.dropWhile isJsonWs

/-- Hexadecimal digit value. -/
def hexVal (c : Char) : Option Nat :=
  if '0' ≤ c ∧ c ≤ '9' then some (c.toNat - 48)
  else if 'a' ≤ c ∧ c ≤ 'f' then some (c.toNat - 87)
  else if 'A' ≤ c ∧ c ≤ 'F' then some (c.toNat - 55)
  else none

/-- Body of a JSON string literal (after the opening quote): returns the
decoded characters and the input after the closing quote. -/
def parseStringBody : List Char → Option (List Char × List Char)
  | [] => none
  | c :: rest =>
    if c = quoteC then some ([], rest)
    else if c = backslashC then
      match rest with
      | [] => none
      | e :: rest2 =>
        if e = quoteC || e = backslashC || e = '/' then
          (parseStringBody rest2).map (fun p => (e :: p.1, p.2))
        else if e = 'b' then
          (parseStringBody rest2).map (fun p => (Char.ofNat 8 :: p.1, p.2))
        else if e = 'f' then
          (parseStringBody rest2).map (fun p => (Char.ofNat 12 :: p.1, p.2))
        else if e = 'n' then
          (parseStringBody rest2).map (fun p => (Char.ofNat 10 :: p.1, p.2))
        else if e = 'r' then
          (parseStringBody rest2).map (fun p => (Char.ofNat 13 :: p.1, p.2))
        else if e = 't' then
          (parseStringBody rest2).map (fun p => (Char.ofNat 9 :: p.1, p.2))
        else if e = 'u' then
          match rest2 with
          | h1 :: h2 :: h3 :: h4 :: rest3 =>
            match hexVal h1, hexVal h2, hexVal h3, hexVal h4 with
            | some a, some b, some c3, some d =>
                (parseStringBody rest3).map
                  (fun p => (Char.ofNat (((a * 16 + b) * 16 + c3) * 16 + d) :: p.1, p.2))
            | _, _, _, _ => none
          | _ => none
        else none
    else if c.toNat < 32 then none
    else (parseStringBody rest).map (fun p => (c :: p.1, p.2))

/-- Numeric value of a list of decimal digit characters. -/
def digitsToNat (ds : List Char) : Nat :=
  ds.foldl (fun acc c => acc * 10 + (c.toNat - 48)) 0

/-- Parse a JSON number (grammar `-? int frac? exp?`) into an exact rational. -/
def parseNumber (cs : List Char) : Option (ℚ × List Char) :=
  let (neg, cs1) :=
    match cs with
    | '-' :: rest => (true, rest)
    | _ => (false, cs)
  match cs1 with
  | [] => none
  | c :: rest =>
    if ¬ c.isDigit then none
    else
      let (intVal, afterInt) :=
        if c = '0' then ((0 : Nat), rest)
        else
          let ds := (c :: rest).takeWhile Char.isDigit
          (digitsToNat ds, (c :: rest).dropWhile Char.isDigit)
      let fracStep : Option (Nat × Nat × List Char) :=
        match afterInt with
        | '.' :: r2 =>
            let fs := r2.takeWhile Char.isDigit
            if fs.isEmpty then none
            else some (digitsToNat fs, fs.length, r2.dropWhile Char.isDigit)
        | _ => some (0, 0, afterInt)
      match fracStep with
      | none => none
      | some (fracVal, fracLen, afterFrac) =>
        let expStep : Option (Int × List Char) :=
          match afterFrac with
          | 'e' :: r3 | 'E' :: r3 =>
              let (esign, r4) :=
                match r3 with
                | '+' :: r5 => ((1 : Int), r5)
                | '-' :: r5 => ((-1 : Int), r5)
                | _ => ((1 : Int), r3)
              let es := r4.takeWhile Char.isDigit
              if es.isEmpty then none
              else some (esign * (digitsToNat es : Int), r4.dropWhile Char.isDigit)
          | _ => some (0, afterFrac)
        match expStep with
        | none => none
        | some (expVal, afterExp) =>
          let mag : Int := (intVal * 10 ^ fracLen + fracVal : Nat)
          let signed : Int := if neg then -mag else mag
          let q : ℚ :=
            if 0 ≤ expVal then
              mkRat (signed * 10 ^ expVal.toNat) (10 ^ fracLen)
            else
              mkRat signed (10 ^ (fracLen + (-expVal).toNat))
          some (q, afterExp)

mutual

/-- Parse one JSON value (fuel-bounded recursive descent). -/
def parseValue : Nat → List Char → Option (Json × List Char)
  | 0, _ => none
  | Nat.succ fuel, cs =>
    match skipWs cs with
    | [] => none
    | c :: rest =>
      if c = quoteC then
        (parseStringBody rest).map (fun p => (Json.str (String.mk p.1), p.2))
      else if c = braceL then
        match skipWs rest with
        | c2 :: rest2 =>
            if c2 = braceR then some (Json.obj [], rest2)
            else parseMembers fuel [] (c2 :: rest2)
        | [] => none
      else if c = '[' then
        match skipWs rest with
        | c2 :: rest2 =>
            if c2 = ']' then some (Json.arr [], rest2)
            else parseElems fuel [] (c2 :: rest2)
        | [] => none
      else if c = 't' then
        match rest with
        | 'r' :: 'u' :: 'e' :: rest2 => some (Json.bool true, rest2)
        | _ => none
      else if c = 'f' then
        match rest with
        | 'a' :: 'l' :: 's' :: 'e' :: rest2 => some (Json.bool false, rest2)
        | _ => none
      else if c = 'n' then
        match rest with
        | 'u' :: 'l' :: 'l' :: rest2 => some (Json.null, rest2)
        | _ => none
      else
        (parseNumber (c :: rest)).map (fun p => (Json.num p.1, p.2))

/-- Parse the members of a JSON object (after at least one member is known to
follow); duplicate keys overwrite in place, as property assignment does. -/
def parseMembers : Nat → List (String × Json) → List Char →
    Option (Json × List Char)
  | 0, _, _ => none
  | Nat.succ fuel, acc, cs =>
    match skipWs cs with
    | c :: rest =>
      if c = quoteC then
        match parseStringBody rest with
        | none => none
        | some (kcs, r1) =>
          match skipWs r1 with
          | ':' :: r2 =>
            match parseValue fuel r2 with
            | none => none
            | some (v, r3) =>
              let acc2 := mapSet acc (String.mk kcs) v
              match skipWs r3 with
              | ',' :: r4 => parseMembers fuel acc2 r4
              | c4 :: r4 =>
                  if c4 = braceR then some (Json.obj acc2, r4) else none
              | [] => none
          | _ => none
      else none
    | [] => none

/-- Parse the elements of a JSON array (after at least one element is known to
follow). -/
def parseElems : Nat → List Json → List Char → Option (Json × List Char)
  | 0, _, _ => none
  | Nat.succ fuel, acc, cs =>
    match parseValue fuel cs with
    | none => none
    | some (v, r1) =>
      match skipWs r1 with
      | ',' :: r2 => parseElems fuel (acc ++ [v]) r2
      | ']' :: r2 => some (Json.arr (acc ++ [v]), r2)
      | _ => none

end

/-- Model of `JSON.parse`: parse a complete JSON text (trailing whitespace
allowed, anything else rejected). -/
def jsonParse (s : String) : Option Json :=
  match parseValue (s.data.length + 1) s.data with
  | some (v, rest) => if (skipWs rest).isEmpty then some v else none
  | none => none

/-- Model of `text.match(/\x7b[\s\S]*\x7d/)`: the (greedy, leftmost) match
runs from the first opening brace to the last closing brace of the text,
provided the latter lies beyond the former. -/
def extractJson (cs : List Char) : Option (List Char) :=
  match cs.dropWhile (fun c => c ≠ braceL) with
  | [] => none
  | c :: rest =>
      let revTail := rest.reverse.dropWhile (fun ch => ch ≠ braceR)
      if revTail.isEmpty then none else some (c :: revTail.reverse)

/-! ### JavaScript value helpers used by the service -/

/-- Truthiness of a JavaScript value (`undefined`, `null`, `false`, `0` and
the empty string are falsy). -/
def jsTruthy (v : Option Json) : Bool :=
  match v with
  | some (Json.num q) => decide (q ≠ 0)
  | some (Json.str s) => decide (s ≠ "")
  | some (Json.bool b) => b
  | some Json.null => false
  | some (Json.arr _) => true
  | some (Json.obj _) => true
  | none => false

/-- Model of `metrics.x || d` on a metric field: the adapters populate metric
fields with numbers, so a truthy field is its numeric value and any falsy or
absent field short-circuits to the default. -/
def jsOrNum (v : Option Json) (d : ℚ) : ℚ :=
  match v with
  | some (Json.num q) => if q = 0 then d else q
  | _ => d

/-- Numeric value of a field that has already been checked truthy (the raw
read `metrics.x` as used inside the health-score formulas). -/
def numValOr0 (v : Option Json) : ℚ :=
  match v with
  | some (Json.num q) => q
  | _ => 0

/-- Template-literal interpolation `${v}` of a possibly-absent value (arrays
and nested objects do not occur in the metric payloads of this system, so
their display strings are abbreviated here). -/
def interpOpt (v : Option Json) : String :=
  match v with
  | none => "undefined"
  | some Json.null => "null"
  | some (Json.bool b) => cond b "true" "false"
  | some (Json.num q) => jsNumToString q
  | some (Json.str s) => s
  | some (Json.arr _) => ""
  | some (Json.obj _) => "[object Object]"

/-- Model of `metrics.totalAreaHa?.toLocaleString() || "N/A"`: optional
chaining on an absent or null field yields `undefined`, hence `"N/A"`. -/
def optLocaleOrNA (v : Option Json) : String :=
  match v with
  | some (Json.num q) =>
      let s := jsToLocaleString q
      if s = "" then "N/A" else s
  | some (Json.str s) => if s = "" then "N/A" else s
  | some (Json.bool b) => cond b "true" "false"
  | some (Json.obj _) => "[object Object]"
  | some (Json.arr _) => "N/A"
  | some Json.null => "N/A"
  | none => "N/A"

/-! ### DiagnosticService state (constructor of `DiagnosticService`) -/

/-- One entry of `this.diagnosisCache` (`\x7b data, timestamp \x7d`). -/
structure CacheEntry where
  data : List (String × Json)
  timestamp : Int

/-- The mutable quota/cache state of the `DiagnosticService` singleton. -/
structure ServiceState where
  diagnosisCache : List (String × CacheEntry)
  cacheExpiry : Int
  lastGeminiCall : Int
  minCallInterval : Int
  dailyCallCount : Nat
  maxDailyCalls : Nat
  lastResetDate : String

/-- The constructor: empty cache, 1 hour expiry, one minute spacing, fifty
calls per day, counter at zero. -/
def initState (creationDate : String) : ServiceState :=
  { diagnosisCache := []
    cacheExpiry := 3600000
    lastGeminiCall := 0
    minCallInterval := 60000
    dailyCallCount := 0
    maxDailyCalls := 50
    lastResetDate := creationDate }

/-- Model of `resetDailyCounterIfNeeded`. -/
def resetDailyCounterIfNeeded (s : ServiceState) (today : String) :
    ServiceState :=
  if s.lastResetDate ≠ today then
    { s with dailyCallCount := 0, lastResetDate := today }
  else s

/-- Outcome of the Gemini network call, supplied as an oracle: the promise
either rejects (transport-level error) or resolves to raw response text. -/
inductive AIOutcome where
  | transportError : AIOutcome
  | response (text : String) : AIOutcome

/-! ### Rule-based diagnosis engine (`generateRuleBasedDiagnosis`) -/

/-- The returned object literal of `generateRuleBasedDiagnosis`. -/
def ruleResult (diagnosis status severity nowIso : String) :
    List (String × Json) :=
  [("diagnosis", Json.str diagnosis),
   ("status", Json.str status),
   ("severity", Json.str severity),
   ("source", Json.str "Rule-based diagnostic system"),
   ("timestamp", Json.str nowIso)]

/-- The `case "Lungs"` branch of `generateRuleBasedDiagnosis`. -/
def lungsDiagnosis (metrics : List (String × Json)) (nowIso : String) :
    List (String × Json) :=
  let alertCount := jsOrNum (mapGet metrics "alertCount") 0
  if alertCount > 1000 then
    ruleResult
      ("CRITICAL RESPIRATORY DISTRESS: " ++ jsToLocaleString alertCount ++
        " deforestation alerts detected in " ++
        interpOpt (mapGet metrics "region") ++
        ". Massive tissue damage observed. Area affected: " ++
        optLocaleOrNA (mapGet metrics "totalAreaHa") ++
        " hectares. Immediate intervention required to prevent irreversible damage.")
      "INFLAMED" "CRITICAL" nowIso
  else if alertCount > 500 then
    ruleResult
      ("ACUTE INFLAMMATION: " ++ jsToLocaleString alertCount ++
        " deforestation events compromising respiratory function in " ++
        interpOpt (mapGet metrics "region") ++
        ". Significant tissue degradation detected. Urgent restoration protocols recommended.")
      "INFLAMED" "HIGH" nowIso
  else if alertCount > 200 then
    ruleResult
      ("MODERATE STRESS: " ++ jsNumToString alertCount ++
        " deforestation alerts indicate early-stage respiratory compromise in " ++
        interpOpt (mapGet metrics "region") ++
        ". Preventive measures advised to avoid progression.")
      "INFLAMED" "MODERATE" nowIso
  else
    ruleResult
      ("STABLE CONDITION: Minimal deforestation activity (" ++
        jsNumToString alertCount ++ " alerts) in " ++
        interpOpt (mapGet metrics "region") ++
        ". Respiratory function within normal parameters. Continue monitoring.")
      "HEALTHY" "LOW" nowIso

/-- The `case "Veins"` branch of `generateRuleBasedDiagnosis`. -/
def veinsDiagnosis (metrics : List (String × Json)) (nowIso : String) :
    List (String × Json) :=
  let pH := jsOrNum (mapGet metrics "pH") (mkRat 81 10)
  if pH < mkRat 79 10 then
    ruleResult
      ("SEVERE ACIDOSIS: Ocean pH at " ++ jsToFixed pH 3 ++ " in " ++
        interpOpt (mapGet metrics "location") ++
        ". Critical acidification threatening circulatory system integrity. Coral bleaching and marine ecosystem collapse imminent. Emergency alkalinity restoration required.")
      "INFLAMED" "CRITICAL" nowIso
  else if pH < 8 then
    ruleResult
      ("ACUTE ACIDIFICATION: pH level " ++ jsToFixed pH 3 ++
        " detected in " ++ interpOpt (mapGet metrics "location") ++
        ". Circulatory system under significant stress. " ++
        interpOpt (mapGet metrics "acidificationLevel") ++
        " acidification level compromising vascular health. Immediate buffering intervention needed.")
      "INFLAMED" "HIGH" nowIso
  else if pH < mkRat 81 10 then
    ruleResult
      ("EARLY ACIDOSIS: pH " ++ jsToFixed pH 3 ++ " in " ++
        interpOpt (mapGet metrics "location") ++
        " indicates moderate circulatory stress. " ++
        interpOpt (mapGet metrics "acidificationLevel") ++
        " acidification detected. Preventive measures recommended.")
      "INFLAMED" "MODERATE" nowIso
  else
    ruleResult
      ("OPTIMAL CIRCULATION: Ocean pH at " ++ jsToFixed pH 3 ++ " in " ++
        interpOpt (mapGet metrics "location") ++
        ". Vascular system functioning normally. Acidification levels within safe parameters.")
      "HEALTHY" "LOW" nowIso

/-- The `case "Skin"` branch of `generateRuleBasedDiagnosis`. -/
def skinDiagnosis (metrics : List (String × Json)) (nowIso : String) :
    List (String × Json) :=
  let aqi := jsOrNum (mapGet metrics "aqi") 1
  let pm25 := jsOrNum (mapGet metrics "pm25") 0
  if aqi >= 4 ∨ pm25 > 35 then
    ruleResult
      ("SEVERE DERMAL TOXICITY: Air Quality Index " ++ jsNumToString aqi ++
        " (Unhealthy) in " ++ interpOpt (mapGet metrics "location") ++
        ". PM2.5 particulate matter at " ++ jsToFixed pm25 2 ++
        " μg/m³. Skin barrier severely compromised. Toxic exposure causing cellular damage. Immediate air purification required.")
      "INFLAMED" "CRITICAL" nowIso
  else if aqi >= 3 ∨ pm25 > 25 then
    ruleResult
      ("ACUTE IRRITATION: AQI " ++ jsNumToString aqi ++
        " with PM2.5 at " ++ jsToFixed pm25 2 ++ " μg/m³ in " ++
        interpOpt (mapGet metrics "location") ++
        ". Moderate air pollution causing dermal stress. Protective measures advised.")
      "INFLAMED" "HIGH" nowIso
  else if aqi >= 2 ∨ pm25 > 12 then
    ruleResult
      ("MILD INFLAMMATION: AQI " ++ jsNumToString aqi ++ ", PM2.5 " ++
        jsToFixed pm25 2 ++ " μg/m³ in " ++
        interpOpt (mapGet metrics "location") ++
        ". Acceptable air quality but showing early signs of environmental stress. Monitor closely.")
      "INFLAMED" "MODERATE" nowIso
  else
    ruleResult
      ("HEALTHY EPIDERMIS: Air quality excellent in " ++
        interpOpt (mapGet metrics "location") ++ ". AQI " ++
        jsNumToString aqi ++ ", PM2.5 " ++ jsToFixed pm25 2 ++
        " μg/m³. Skin barrier functioning optimally. No intervention needed.")
      "HEALTHY" "LOW" nowIso

/-- Model of `generateRuleBasedDiagnosis(metrics, organType)`; `nowIso` is
the `new Date().toISOString()` value at the moment of the call. The `switch`
dispatches on the organ type, with the `default` arm for unknown types. -/
def generateRuleBasedDiagnosis (metrics : List (String × Json))
    (organType : String) (nowIso : String) : List (String × Json) :=
  if organType = "Lungs" then lungsDiagnosis metrics nowIso
  else if organType = "Veins" then veinsDiagnosis metrics nowIso
  else if organType = "Skin" then skinDiagnosis metrics nowIso
  else
    ruleResult
      ("Environmental monitoring active for " ++ organType ++
        ". Awaiting detailed analysis.")
      "INFLAMED" "LOW" nowIso

/-! ### AI response handling inside `generateDiagnosis` (lines 302-324) -/

/-- The hard-coded fallback object substituted when no JSON can be extracted
or parsed from the Gemini response text. -/
def fallbackDiagnosis (organType : String) : List (String × Json) :=
  [("diagnosis",
    Json.str ("Environmental stress detected in " ++ organType ++
      ". Immediate intervention required.")),
   ("status", Json.str "INFLAMED")]

/-- Model of `["INFLAMED", "HEALTHY"].includes(diagnosisData.status)`. -/
def statusAllowed (dd : List (String × Json)) : Bool :=
  match mapGet dd "status" with
  | some (Json.str s) => s = "INFLAMED" || s = "HEALTHY"
  | _ => false

/-- Extraction plus `JSON.parse` of the raw response text: the fields of the
parsed object when the greedy brace-to-brace match parses, otherwise `none`. -/
def parseAIResponseCore (text : String) : Option (List (String × Json)) :=
  match extractJson text.data with
  | none => none
  | some cs =>
    match jsonParse (String.mk cs) with
    | some (Json.obj fs) => some fs
    | _ => none

/-- Lines 302-324 of the service: extract and parse the response text,
substitute the fallback object on failure, then force an unknown status to
`INFLAMED`. -/
def parseAIResponse (text organType : String) : List (String × Json) :=
  let diagnosisData :=
    match parseAIResponseCore text with
    | some fs => fs
    | none => fallbackDiagnosis organType
  if statusAllowed diagnosisData then diagnosisData
  else mapSet diagnosisData "status" (Json.str "INFLAMED")

/-! ### The orchestrator `generateDiagnosis` -/

/-- The cache key `organType + "-" + JSON.stringify(metrics)`. -/
def cacheKeyOf (organType : String) (metrics : List (String × Json)) :
    String :=
  organType ++ "-" ++ stringifyVal (Json.obj metrics)

/-- Which of the four code paths of `generateDiagnosis` produced the result
(observational instrumentation; the source logs the same distinction). -/
inductive DiagPath where
  | cacheHit : DiagPath
  | ruleQuotaDenied : DiagPath
  | aiParsed : DiagPath
  | aiSubstituted : DiagPath
  | ruleTransportFallback : DiagPath

/-- Result of one `generateDiagnosis` call: the returned diagnosis object,
the updated service state, whether the Gemini client was invoked, and the
path taken. -/
structure StepOut where
  result : List (String × Json)
  state : ServiceState
  aiCalled : Bool
  path : DiagPath

/-- Lines 230-232 of the service: the cached entry's data when it exists and
is still inside the validity window, otherwise `none` (lazy expiry). -/
def cacheLookup (s : ServiceState) (cacheKey : String) (now : Int) :
    Option (List (String × Json)) :=
  match mapGet s.diagnosisCache cacheKey with
  | some cached =>
      if now - cached.timestamp < s.cacheExpiry then some cached.data
      else none
  | none => none

/-- Model of `generateDiagnosis(metrics, organType)` executed at time `now`
on date `today` (`nowIso` is the ISO timestamp used by the rule engine, `ai`
the oracle outcome of the Gemini call if one is made). The two `Date.now()`
reads inside one call (cache check and rate gate) are modelled as the same
instant `now`. -/
def generateDiagnosis (s0 : ServiceState) (metrics : List (String × Json))
    (organType : String) (now : Int) (today nowIso : String)
    (ai : AIOutcome) : StepOut :=
  let s := resetDailyCounterIfNeeded s0 today
  let cacheKey := cacheKeyOf organType metrics
  match cacheLookup s cacheKey now with
  | some d => ⟨d, s, false, DiagPath.cacheHit⟩
  | none =>
    if now - s.lastGeminiCall ≥ s.minCallInterval ∧
        s.dailyCallCount < s.maxDailyCalls then
      match ai with
      | AIOutcome.response text =>
          let diagnosisData := parseAIResponse text organType
          ⟨diagnosisData,
           { s with lastGeminiCall := now,
                    dailyCallCount := s.dailyCallCount + 1,
                    diagnosisCache :=
                      mapSet s.diagnosisCache cacheKey ⟨diagnosisData, now⟩ },
           true,
           match parseAIResponseCore text with
           | some _ => DiagPath.aiParsed
           | none => DiagPath.aiSubstituted⟩
      | AIOutcome.transportError =>
          let fallbackDiag := generateRuleBasedDiagnosis metrics organType nowIso
          ⟨fallbackDiag,
           { s with diagnosisCache :=
                      mapSet s.diagnosisCache cacheKey ⟨fallbackDiag, now⟩ },
           true, DiagPath.ruleTransportFallback⟩
    else
      let ruleBased := generateRuleBasedDiagnosis metrics organType nowIso
      ⟨ruleBased,
       { s with diagnosisCache :=
                  mapSet s.diagnosisCache cacheKey ⟨ruleBased, now⟩ },
       false, DiagPath.ruleQuotaDenied⟩

/-- One request to the orchestrator together with its environment (clock,
calendar date, ISO timestamp, Gemini oracle). -/
structure Req where
  metrics : List (String × Json)
  organType : String
  now : Int
  today : String
  nowIso : String
  ai : AIOutcome

/-- One `generateDiagnosis` call for a request. -/
def stepReq (s : ServiceState) (r : Req) : StepOut :=
  generateDiagnosis s r.metrics r.organType r.now r.today r.nowIso r.ai

/-- State after a sequence of `generateDiagnosis` calls. -/
def runSeq (s : ServiceState) (rs : List Req) : ServiceState :=
  match rs with
  | [] => s
  | r :: rest => runSeq (stepReq s r).state rest

/-! ### `performDiagnosticScan` and the organ schema -/

/-- The health-score recomputation of `performDiagnosticScan` (before
`Math.round`): each organ type overwrites the stored score from its metric
when that metric field is truthy, with no lower clamp on the Veins formula. -/
def computeHealthScore (organType : String) (organHealthScore : ℚ)
    (metrics : List (String × Json)) : ℚ :=
  if organType = "Lungs" ∧ jsTruthy (mapGet metrics "alertCount") then
    max 0 (ratSub 100 (ratDiv (numValOr0 (mapGet metrics "alertCount")) 10))
  else if organType = "Veins" ∧ jsTruthy (mapGet metrics "pH") then
    min 100 (ratMul (ratSub (numValOr0 (mapGet metrics "pH")) (mkRat 75 10)) 200)
  else if organType = "Skin" ∧ jsTruthy (mapGet metrics "aqi") then
    max 0 (ratSub 100 (ratMul (numValOr0 (mapGet metrics "aqi")) 15))
  else organHealthScore

/-- The object returned by `performDiagnosticScan`. -/
structure ScanResult where
  metrics : List (String × Json)
  diagnosis : Option Json
  status : Option Json
  healthScore : ℤ
  timestamp : String

/-- Model of `performDiagnosticScan(organ)`: an unknown organ type throws;
otherwise the fetched metrics (supplied as the oracle `metrics`) are
diagnosed and the health score recomputed and rounded. -/
def performDiagnosticScan (s : ServiceState) (organType : String)
    (organHealthScore : ℚ) (metrics : List (String × Json)) (now : Int)
    (today nowIso : String) (ai : AIOutcome) :
    Except String (ScanResult × ServiceState) :=
  if organType = "Lungs" ∨ organType = "Veins" ∨ organType = "Skin" then
    let o := generateDiagnosis s metrics organType now today nowIso ai
    Except.ok
      ({ metrics := metrics
         diagnosis := mapGet o.result "diagnosis"
         status := mapGet o.result "status"
         healthScore := jsRound (computeHealthScore organType organHealthScore metrics)
         timestamp := nowIso }, o.state)
  else Except.error ("Unknown organ type: " ++ organType)

/-- The `healthScore` constraint of the organ schema (`models/Organ.js`):
`min: 0, max: 100`. -/
def organHealthScoreValid (score : ℤ) : Prop := 0 ≤ score ∧ score ≤ 100

/-- The cache key of a request. -/
def reqKey (r : Req) : String := cacheKeyOf r.organType r.metrics

/-! ### Concrete demonstration inputs -/

/-- A calendar-day string, as `new Date().toDateString()` produces. -/
def day0 : String := "Mon Jan 06 2025"

/-- A concrete Lungs metric payload. -/
def demoMetrics : List (String × Json) :=
  [("alertCount", Json.num (mkRat 1500 1)), ("region", Json.str "Amazon")]

/-- A request at `t = 60000` whose Gemini call resolves to unparseable text. -/
def demoReqAI : Req :=
  { metrics := demoMetrics, organType := "Lungs", now := 60000, today := day0,
    nowIso := "2025-01-06T00:01:00.000Z", ai := AIOutcome.response "xyz" }

/-- A request at `t = 60000` whose Gemini call rejects. -/
def demoReqTransport : Req :=
  { metrics := demoMetrics, organType := "Lungs", now := 60000, today := day0,
    nowIso := "2025-01-06T00:01:00.000Z", ai := AIOutcome.transportError }

/-- A request at `t = 0` (denied by the one-minute spacing gate). -/
def demoReqEarly : Req :=
  { metrics := demoMetrics, organType := "Lungs", now := 0, today := day0,
    nowIso := "2025-01-06T00:00:00.000Z", ai := AIOutcome.response "xyz" }

/-- A repeat of `demoReqEarly` one second later (served from the cache). -/
def demoReqRepeat : Req :=
  { metrics := demoMetrics, organType := "Lungs", now := 1000, today := day0,
    nowIso := "2025-01-06T00:00:01.000Z", ai := AIOutcome.transportError }

/-- Two metric payloads with the same field/value pairs in opposite
insertion orders. -/
def permMetricsA : List (String × Json) :=
  [("region", Json.str "Amazon"), ("alertCount", Json.num (mkRat 5 1))]

/-- The reversed insertion order of `permMetricsA`. -/
def permMetricsB : List (String × Json) :=
  [("alertCount", Json.num (mkRat 5 1)), ("region", Json.str "Amazon")]

/-- A Gemini response whose embedded JSON object carries an invalid status. -/
def bogusStatusText : String :=
  "Sure! Here is the JSON: \x7b\"diagnosis\": \"Coral stress\", \"status\": \"BOGUS\"\x7d Hope this helps."

/-- A low-alert Lungs payload. -/
def lowAlertMetrics : List (String × Json) :=
  [("alertCount", Json.num (mkRat 50 1)), ("region", Json.str "Congo")]

/-- A borderline Veins payload: pH 7.499 is below 7.5 but its score rounds
to zero, not to a negative number. -/
def borderlinePH : List (String × Json) :=
  [("pH", Json.num (mkRat 7499 1000)), ("location", Json.str "Great Barrier Reef")]

/-- A strongly acidic Veins payload. -/
def acidPH : List (String × Json) :=
  [("pH", Json.num (mkRat 7 1)), ("location", Json.str "Great Barrier Reef")]

/-! ### Lemmas and claim theorems -/

theorem mapGet_mapSet_eq {α : Type} (m : List (String × α)) (k : String)
    (v : α) : mapGet (mapSet m k v) k = some v := by
  induction m with
  | nil => simp [mapGet, mapSet]
  | cons p rest ih =>
      obtain ⟨k', v'⟩ := p
      by_cases h : k' = k
      · simp [mapGet, mapSet, h]
      · simp [mapGet, mapSet, h, ih]

theorem mapGet_mapSet_ne {α : Type} (m : List (String × α)) (k k' : String)
    (v : α) (h : k ≠ k') : mapGet (mapSet m k v) k' = mapGet m k' := by
  induction m with
  | nil => simp [mapGet, mapSet, h]
  | cons p rest ih =>
      obtain ⟨k0, v0⟩ := p
      by_cases h0 : k0 = k
      · subst h0
        simp [mapGet, mapSet, h]
      · by_cases h1 : k0 = k'
        · simp [mapGet, mapSet, h0, h1, Ne.symm h]
        · simp [mapGet, mapSet, h0, h1, ih]

theorem ratMul_eq (a b : ℚ) : ratMul a b = a * b := by
  rw [ratMul, Rat.mkRat_eq_div]
  push_cast
  rw [← div_mul_div_comm, Rat.num_div_den, Rat.num_div_den]

theorem ratSub_eq (a b : ℚ) : ratSub a b = a - b := by
  have ha : ((a.den : ℚ)) ≠ 0 := Nat.cast_ne_zero.mpr a.den_nz
  have hb : ((b.den : ℚ)) ≠ 0 := Nat.cast_ne_zero.mpr b.den_nz
  rw [ratSub, Rat.mkRat_eq_div]
  push_cast
  rw [show ((a.num : ℚ) * (b.den : ℚ) - (b.num : ℚ) * (a.den : ℚ))
        = (a.num : ℚ) * (b.den : ℚ) - (a.den : ℚ) * (b.num : ℚ) by ring]
  rw [← div_sub_div _ _ ha hb, Rat.num_div_den, Rat.num_div_den]

theorem ratInv_eq (a : ℚ) : ratInv a = a⁻¹ := by
  rcases lt_trichotomy a.num 0 with h | h | h
  · rw [ratInv, if_pos h, Rat.mkRat_eq_div, Int.cast_natAbs, abs_of_neg h]
    push_cast
    rw [div_neg, ← neg_div, neg_neg]
    conv_rhs => rw [← Rat.num_div_den a]
    rw [inv_div]
  · have ha : a = 0 := by
      have := Rat.num_div_den a
      rw [h] at this
      simpa using this.symm
    subst ha
    rw [ratInv]
    norm_num
  · rw [ratInv, if_neg (by omega), Rat.mkRat_eq_div, Int.cast_natAbs,
      abs_of_pos h]
    conv_rhs => rw [← Rat.num_div_den a]
    rw [inv_div]
    push_cast
    ring

theorem ratDiv_eq (a b : ℚ) : ratDiv a b = a / b := by
  rw [ratDiv, ratMul_eq, ratInv_eq, div_eq_mul_inv]

theorem jsRound_eq_floor (q : ℚ) : jsRound q = ⌊q + 1 / 2⌋ := by
  have hd : ((q.den : ℚ)) ≠ 0 := Nat.cast_ne_zero.mpr q.den_nz
  have key : q + 1 / 2
      = ((2 * q.num + (q.den : ℤ) : ℤ) : ℚ) / ((2 * q.den : ℕ) : ℚ) := by
    conv_lhs => rw [← Rat.num_div_den q]
    push_cast
    field_simp
    ring
  rw [key, Rat.floor_intCast_div_natCast, jsRound]
  rw [Int.fdiv_eq_ediv _ (by positivity)]
  push_cast
  ring_nf

/-! ### Structural lemmas about the daily reset and one orchestrator step -/

theorem reset_lastResetDate (s : ServiceState) (today : String) :
    (resetDailyCounterIfNeeded s today).lastResetDate = today := by
  unfold resetDailyCounterIfNeeded
  split
  · rfl
  · next h =>
      push_neg at h
      exact h

theorem reset_eq_self (s : ServiceState) (today : String)
    (h : s.lastResetDate = today) : resetDailyCounterIfNeeded s today = s := by
  unfold resetDailyCounterIfNeeded
  rw [if_neg (by simp [h])]

theorem reset_fields (s : ServiceState) (today : String) :
    (resetDailyCounterIfNeeded s today).maxDailyCalls = s.maxDailyCalls ∧
    (resetDailyCounterIfNeeded s today).minCallInterval = s.minCallInterval ∧
    (resetDailyCounterIfNeeded s today).cacheExpiry = s.cacheExpiry ∧
    (resetDailyCounterIfNeeded s today).lastGeminiCall = s.lastGeminiCall ∧
    (resetDailyCounterIfNeeded s today).diagnosisCache = s.diagnosisCache := by
  unfold resetDailyCounterIfNeeded
  split <;> simp

theorem reset_count_le (s : ServiceState) (today : String) :
    (resetDailyCounterIfNeeded s today).dailyCallCount ≤ s.dailyCallCount := by
  unfold resetDailyCounterIfNeeded
  split <;> simp

/-- Case enumeration of one `generateDiagnosis` call: a valid cache hit
returns the cached data and leaves the (reset) state untouched; otherwise the
rate/quota gate decides between the Gemini attempt (response recording quota,
transport error falling back without recording) and the rule-based path. -/
theorem stepReq_spec (s : ServiceState) (r : Req) :
    (∃ d, cacheLookup (resetDailyCounterIfNeeded s r.today) (reqKey r) r.now
            = some d ∧
       stepReq s r
         = ⟨d, resetDailyCounterIfNeeded s r.today, false, DiagPath.cacheHit⟩) ∨
    (cacheLookup (resetDailyCounterIfNeeded s r.today) (reqKey r) r.now = none ∧
     (r.now - (resetDailyCounterIfNeeded s r.today).lastGeminiCall
         ≥ (resetDailyCounterIfNeeded s r.today).minCallInterval ∧
      (resetDailyCounterIfNeeded s r.today).dailyCallCount
         < (resetDailyCounterIfNeeded s r.today).maxDailyCalls) ∧
     ((∃ text, r.ai = AIOutcome.response text ∧
        stepReq s r
          = ⟨parseAIResponse text r.organType,
             { resetDailyCounterIfNeeded s r.today with
                 lastGeminiCall := r.now,
                 dailyCallCount :=
                   (resetDailyCounterIfNeeded s r.today).dailyCallCount + 1,
                 diagnosisCache :=
                   mapSet (resetDailyCounterIfNeeded s r.today).diagnosisCache
                     (reqKey r) ⟨parseAIResponse text r.organType, r.now⟩ },
             true,
             match parseAIResponseCore text with
             | some _ => DiagPath.aiParsed
             | none => DiagPath.aiSubstituted⟩) ∨
      (r.ai = AIOutcome.transportError ∧
        stepReq s r
          = ⟨generateRuleBasedDiagnosis r.metrics r.organType r.nowIso,
             { resetDailyCounterIfNeeded s r.today with
                 diagnosisCache :=
                   mapSet (resetDailyCounterIfNeeded s r.today).diagnosisCache
                     (reqKey r)
                     ⟨generateRuleBasedDiagnosis r.metrics r.organType r.nowIso,
                      r.now⟩ },
             true, DiagPath.ruleTransportFallback⟩))) ∨
    (cacheLookup (resetDailyCounterIfNeeded s r.today) (reqKey r) r.now = none ∧
     ¬(r.now - (resetDailyCounterIfNeeded s r.today).lastGeminiCall
         ≥ (resetDailyCounterIfNeeded s r.today).minCallInterval ∧
       (resetDailyCounterIfNeeded s r.today).dailyCallCount
         < (resetDailyCounterIfNeeded s r.today).maxDailyCalls) ∧
     stepReq s r
       = ⟨generateRuleBasedDiagnosis r.metrics r.organType r.nowIso,
          { resetDailyCounterIfNeeded s r.today with
              diagnosisCache :=
                mapSet (resetDailyCounterIfNeeded s r.today).diagnosisCache
                  (reqKey r)
                  ⟨generateRuleBasedDiagnosis r.metrics r.organType r.nowIso,
                   r.now⟩ },
          false, DiagPath.ruleQuotaDenied⟩) := by
  simp only [stepReq, generateDiagnosis, reqKey]
  cases hcl : cacheLookup (resetDailyCounterIfNeeded s r.today)
      (cacheKeyOf r.organType r.metrics) r.now with
  | some d => exact Or.inl ⟨d, rfl, rfl⟩
  | none =>
    by_cases hgate : r.now - (resetDailyCounterIfNeeded s r.today).lastGeminiCall
        ≥ (resetDailyCounterIfNeeded s r.today).minCallInterval ∧
        (resetDailyCounterIfNeeded s r.today).dailyCallCount
        < (resetDailyCounterIfNeeded s r.today).maxDailyCalls
    · rw [if_pos hgate]
      cases hai : r.ai with
      | transportError =>
          exact Or.inr (Or.inl ⟨rfl, hgate, Or.inr ⟨rfl, rfl⟩⟩)
      | response text =>
          exact Or.inr (Or.inl ⟨rfl, hgate, Or.inl ⟨text, rfl, rfl⟩⟩)
    · rw [if_neg hgate]
      exact Or.inr (Or.inr ⟨rfl, hgate, rfl⟩)

theorem stepReq_const (s : ServiceState) (r : Req) :
    (stepReq s r).state.maxDailyCalls = s.maxDailyCalls ∧
    (stepReq s r).state.minCallInterval = s.minCallInterval ∧
    (stepReq s r).state.cacheExpiry = s.cacheExpiry ∧
    (stepReq s r).state.lastResetDate = r.today := by
  have hf := reset_fields s r.today
  have hd := reset_lastResetDate s r.today
  rcases stepReq_spec s r with ⟨d, _, heq⟩ | ⟨_, _, ⟨text, _, heq⟩ | ⟨_, heq⟩⟩ |
      ⟨_, _, heq⟩ <;>
    rw [heq] <;> exact ⟨hf.1, hf.2.1, hf.2.2.1, hd⟩

theorem stepReq_gate (s : ServiceState) (r : Req)
    (h : (stepReq s r).aiCalled = true) :
    r.now - s.lastGeminiCall ≥ s.minCallInterval ∧
    (resetDailyCounterIfNeeded s r.today).dailyCallCount < s.maxDailyCalls := by
  have hf := reset_fields s r.today
  rcases stepReq_spec s r with ⟨d, _, heq⟩ | ⟨_, hgate, _⟩ | ⟨_, _, heq⟩
  · rw [heq] at h
    simp at h
  · rw [hf.2.2.2.1, hf.2.1, hf.1] at hgate
    exact hgate
  · rw [heq] at h
    simp at h

theorem stepReq_count (s : ServiceState) (r : Req) :
    (stepReq s r).state.dailyCallCount
        = (resetDailyCounterIfNeeded s r.today).dailyCallCount ∨
    ((stepReq s r).state.dailyCallCount
        = (resetDailyCounterIfNeeded s r.today).dailyCallCount + 1 ∧
      (resetDailyCounterIfNeeded s r.today).dailyCallCount < s.maxDailyCalls) := by
  have hf := reset_fields s r.today
  rcases stepReq_spec s r with ⟨d, _, heq⟩ | ⟨_, hgate, ⟨text, _, heq⟩ | ⟨_, heq⟩⟩ |
      ⟨_, _, heq⟩
  · rw [heq]
    exact Or.inl rfl
  · rw [heq]
    rw [hf.1] at hgate
    exact Or.inr ⟨rfl, hgate.2⟩
  · rw [heq]
    exact Or.inl rfl
  · rw [heq]
    exact Or.inl rfl

theorem stepReq_lastCall (s : ServiceState) (r : Req) :
    (stepReq s r).state.lastGeminiCall = s.lastGeminiCall ∨
    (stepReq s r).state.lastGeminiCall = r.now := by
  have hf := reset_fields s r.today
  rcases stepReq_spec s r with ⟨d, _, heq⟩ | ⟨_, _, ⟨text, _, heq⟩ | ⟨_, heq⟩⟩ |
      ⟨_, _, heq⟩
  · rw [heq]
    exact Or.inl hf.2.2.2.1
  · rw [heq]
    exact Or.inr rfl
  · rw [heq]
    exact Or.inl hf.2.2.2.1
  · rw [heq]
    exact Or.inl hf.2.2.2.1

theorem stepReq_cache_stable (s : ServiceState) (r : Req) (k : String)
    (e : CacheEntry) (hget : mapGet s.diagnosisCache k = some e)
    (hfresh : r.now - e.timestamp < s.cacheExpiry) :
    mapGet (stepReq s r).state.diagnosisCache k = some e := by
  have hf := reset_fields s r.today
  by_cases hk : reqKey r = k
  · rcases stepReq_spec s r with ⟨d, hcl, heq⟩ | ⟨hcl, _, _⟩ | ⟨hcl, _, _⟩
    · rw [heq]
      rw [hf.2.2.2.2]
      exact hget
    all_goals
      rw [hk] at hcl
      unfold cacheLookup at hcl
      rw [hf.2.2.2.2, hget, hf.2.2.1] at hcl
      simp [hfresh] at hcl
  · rcases stepReq_spec s r with ⟨d, hcl, heq⟩ | ⟨hcl, _, ⟨text, _, heq⟩ | ⟨_, heq⟩⟩ |
        ⟨hcl, _, heq⟩ <;> rw [heq]
    · rw [hf.2.2.2.2]
      exact hget
    all_goals
      show mapGet (mapSet (resetDailyCounterIfNeeded s r.today).diagnosisCache
        (reqKey r) _) k = some e
      rw [mapGet_mapSet_ne _ _ _ _ hk, hf.2.2.2.2]
      exact hget

theorem stepReq_cache_after_miss (s : ServiceState) (r : Req)
    (hmiss : cacheLookup (resetDailyCounterIfNeeded s r.today) (reqKey r) r.now
      = none) :
    mapGet (stepReq s r).state.diagnosisCache (reqKey r)
      = some ⟨(stepReq s r).result, r.now⟩ := by
  rcases stepReq_spec s r with ⟨d, hcl, heq⟩ | ⟨_, _, ⟨text, _, heq⟩ | ⟨_, heq⟩⟩ |
      ⟨_, _, heq⟩
  · rw [hcl] at hmiss
    simp at hmiss
  all_goals
    rw [heq]
    exact mapGet_mapSet_eq _ _ _

theorem stepReq_of_hit (s : ServiceState) (r : Req)
    (d : List (String × Json))
    (hhit : cacheLookup (resetDailyCounterIfNeeded s r.today) (reqKey r) r.now
      = some d) :
    stepReq s r
      = ⟨d, resetDailyCounterIfNeeded s r.today, false, DiagPath.cacheHit⟩ := by
  rcases stepReq_spec s r with ⟨d', hcl, heq⟩ | ⟨hcl, _, _⟩ | ⟨hcl, _, _⟩
  · rw [hcl] at hhit
    obtain rfl : d' = d := Option.some.inj hhit
    exact heq
  all_goals
    rw [hcl] at hhit
    simp at hhit

theorem runSeq_const (s : ServiceState) (rs : List Req) :
    (runSeq s rs).maxDailyCalls = s.maxDailyCalls ∧
    (runSeq s rs).minCallInterval = s.minCallInterval ∧
    (runSeq s rs).cacheExpiry = s.cacheExpiry := by
  induction rs generalizing s with
  | nil => exact ⟨rfl, rfl, rfl⟩
  | cons r rest ih =>
      have h1 := stepReq_const s r
      have h2 := ih (stepReq s r).state
      exact ⟨h2.1.trans h1.1, h2.2.1.trans h1.2.1, h2.2.2.trans h1.2.2.1⟩

theorem runSeq_cache_stable (s : ServiceState) (rs : List Req) (k : String)
    (e : CacheEntry) (hget : mapGet s.diagnosisCache k = some e)
    (hfresh : ∀ r ∈ rs, r.now - e.timestamp < s.cacheExpiry) :
    mapGet (runSeq s rs).diagnosisCache k = some e := by
  induction rs generalizing s with
  | nil => exact hget
  | cons r rest ih =>
      have h1 := stepReq_cache_stable s r k e hget
        (hfresh r (List.mem_cons_self r rest))
      have hexp := (stepReq_const s r).2.2.1
      exact ih (stepReq s r).state h1
        (fun r' hr' => by
          rw [hexp]
          exact hfresh r' (List.mem_cons_of_mem r hr'))

theorem runSeq_sameday (s : ServiceState) (rs : List Req)
    (hday : ∀ r ∈ rs, r.today = s.lastResetDate)
    (hc : s.dailyCallCount ≤ s.maxDailyCalls) :
    (runSeq s rs).dailyCallCount ≤ s.maxDailyCalls ∧
    (runSeq s rs).lastResetDate = s.lastResetDate ∧
    (runSeq s rs).maxDailyCalls = s.maxDailyCalls := by
  induction rs generalizing s with
  | nil => exact ⟨hc, rfl, rfl⟩
  | cons r rest ih =>
      have hdr : r.today = s.lastResetDate := hday r (List.mem_cons_self r rest)
      have hreset : resetDailyCounterIfNeeded s r.today = s :=
        reset_eq_self s r.today hdr.symm
      have hconst := stepReq_const s r
      have hc1 : (stepReq s r).state.dailyCallCount ≤ s.maxDailyCalls := by
        rcases stepReq_count s r with h | ⟨h, hlt⟩
        · rw [h, hreset]
          exact hc
        · rw [h, hreset]
          rw [hreset] at hlt
          omega
      have ih' := ih (stepReq s r).state
        (fun r' hr' => by
          rw [hconst.2.2.2, hdr]
          exact hday r' (List.mem_cons_of_mem r hr'))
        (by rw [hconst.1]; exact hc1)
      refine ⟨by rw [← hconst.1]; exact ih'.1, ?_, ih'.2.2.trans hconst.1⟩
      show (runSeq (stepReq s r).state rest).lastResetDate = s.lastResetDate
      rw [ih'.2.1, hconst.2.2.2, hdr]

/-! ### String and rule-result helper lemmas -/

theorem strNeEmpty_append (s t : String) (h : s ≠ "") : s ++ t ≠ "" := by
  intro hc
  apply h
  have hd := congrArg String.data hc
  rw [String.data_append] at hd
  obtain ⟨h1, _⟩ := List.append_eq_nil.mp hd
  cases s with
  | mk d =>
      cases h1
      rfl

theorem str_append_left_cancel (s x y : String) (h : x ≠ y) :
    s ++ x ≠ s ++ y := by
  intro hc
  apply h
  have hd := congrArg String.data hc
  rw [String.data_append, String.data_append] at hd
  have hxy := List.append_cancel_left hd
  cases x with
  | mk dx =>
      cases y with
      | mk dy =>
          cases hxy
          rfl

theorem ruleResult_get_status (d st sev iso : String) :
    mapGet (ruleResult d st sev iso) "status" = some (Json.str st) := by
  simp [ruleResult, mapGet]

theorem ruleResult_get_diag (d st sev iso : String) :
    mapGet (ruleResult d st sev iso) "diagnosis" = some (Json.str d) := by
  simp [ruleResult, mapGet]

theorem ruleResult_get_severity (d st sev iso : String) :
    mapGet (ruleResult d st sev iso) "severity" = some (Json.str sev) := by
  simp [ruleResult, mapGet]

theorem ruleResult_keys (d st sev iso : String) :
    (ruleResult d st sev iso).map Prod.fst
      = ["diagnosis", "status", "severity", "source", "timestamp"] := rfl

theorem ruleBased_wellformed (metrics : List (String × Json))
    (organType iso : String) :
    (mapGet (generateRuleBasedDiagnosis metrics organType iso) "status"
        = some (Json.str "INFLAMED") ∨
     mapGet (generateRuleBasedDiagnosis metrics organType iso) "status"
        = some (Json.str "HEALTHY")) ∧
    ∃ d, mapGet (generateRuleBasedDiagnosis metrics organType iso) "diagnosis"
        = some (Json.str d) ∧ d ≠ "" := by
  unfold generateRuleBasedDiagnosis lungsDiagnosis veinsDiagnosis skinDiagnosis
  dsimp only
  split_ifs <;>
    refine ⟨?_, _, ruleResult_get_diag _ _ _ _, ?_⟩ <;>
    first
      | exact Or.inl (ruleResult_get_status _ _ _ _)
      | exact Or.inr (ruleResult_get_status _ _ _ _)
      | · repeat apply strNeEmpty_append
          decide

theorem ruleBased_keys (metrics : List (String × Json)) (organType iso : String) :
    (generateRuleBasedDiagnosis metrics organType iso).map Prod.fst
      = ["diagnosis", "status", "severity", "source", "timestamp"] := by
  unfold generateRuleBasedDiagnosis lungsDiagnosis veinsDiagnosis skinDiagnosis
  dsimp only
  split_ifs <;> exact ruleResult_keys _ _ _ _

theorem statusAllowed_fallback (organType : String) :
    statusAllowed (fallbackDiagnosis organType) = true := rfl

theorem parseAIResponse_of_none (text organType : String)
    (h : parseAIResponseCore text = none) :
    parseAIResponse text organType = fallbackDiagnosis organType := by
  unfold parseAIResponse
  rw [h]
  simp [statusAllowed_fallback]

/-! ### Claim theorems -/

/-- C1: across any sequence of `generateDiagnosis` calls within a single
calendar day, the daily Gemini counter never exceeds the configured ceiling
(`maxDailyCalls`, 50 in `initState`), and the Gemini path is entered only
when the counter is strictly below the ceiling. -/
theorem quota_daily_ceiling (s : ServiceState) (reqs : List Req)
    (hday : ∀ r ∈ reqs, r.today = s.lastResetDate)
    (hc : s.dailyCallCount ≤ s.maxDailyCalls) :
    (runSeq s reqs).dailyCallCount ≤ s.maxDailyCalls ∧
    ∀ pre r post, reqs = pre ++ r :: post →
      (stepReq (runSeq s pre) r).aiCalled = true →
      (runSeq s pre).dailyCallCount < s.maxDailyCalls := by
  refine ⟨(runSeq_sameday s reqs hday hc).1, ?_⟩
  intro pre r post hsplit hcall
  have hdaypre : ∀ r' ∈ pre, r'.today = s.lastResetDate := by
    intro r' hr'
    exact hday r' (by rw [hsplit]; exact List.mem_append_left _ hr')
  have hinv := runSeq_sameday s pre hdaypre hc
  have hgate := stepReq_gate (runSeq s pre) r hcall
  have hdr : r.today = (runSeq s pre).lastResetDate := by
    rw [hinv.2.1]
    exact hday r (by
      rw [hsplit]
      exact List.mem_append_right _ (List.mem_cons_self r post))
  have hreset := reset_eq_self (runSeq s pre) r.today hdr.symm
  rw [hreset] at hgate
  rw [← hinv.2.2]
  exact hgate.2

/-- Witness for C1 at a concrete one-request day. -/
theorem quota_daily_ceiling_witness :
    (runSeq (initState day0) [demoReqAI]).dailyCallCount
        ≤ (initState day0).maxDailyCalls ∧
    (stepReq (runSeq (initState day0) []) demoReqAI).aiCalled = true ∧
    (runSeq (initState day0) []).dailyCallCount
        < (initState day0).maxDailyCalls := by
  have h := quota_daily_ceiling (initState day0) [demoReqAI]
    (by
      intro r hr
      simp only [List.mem_singleton] at hr
      subst hr
      rfl)
    (by decide)
  exact ⟨h.1, rfl, h.2 [] demoReqAI [] rfl rfl⟩

/-- C4: the Gemini path is never entered less than `minCallInterval` after
the previously recorded call time, and a step records `lastGeminiCall` only
as its own `now`; hence two consecutive recorded AI calls are at least the
configured minimum interval apart. -/
theorem rate_min_interval (s : ServiceState) (reqs pre : List Req) (r : Req)
    (post : List Req) (_hsplit : reqs = pre ++ r :: post)
    (hcall : (stepReq (runSeq s pre) r).aiCalled = true) :
    r.now - (runSeq s pre).lastGeminiCall ≥ s.minCallInterval ∧
    ((stepReq (runSeq s pre) r).state.lastGeminiCall = r.now ∨
     (stepReq (runSeq s pre) r).state.lastGeminiCall
       = (runSeq s pre).lastGeminiCall) := by
  have hgate := stepReq_gate (runSeq s pre) r hcall
  have hmin := (runSeq_const s pre).2.1
  refine ⟨by rw [← hmin]; exact hgate.1, ?_⟩
  rcases stepReq_lastCall (runSeq s pre) r with h | h
  · exact Or.inr h
  · exact Or.inl h

/-- Witness for C4 at a concrete call one minute after initialization. -/
theorem rate_min_interval_witness :
    demoReqAI.now - (runSeq (initState day0) []).lastGeminiCall
        ≥ (initState day0).minCallInterval ∧
    ((stepReq (runSeq (initState day0) []) demoReqAI).state.lastGeminiCall
        = demoReqAI.now ∨
     (stepReq (runSeq (initState day0) []) demoReqAI).state.lastGeminiCall
        = (runSeq (initState day0) []).lastGeminiCall) :=
  rate_min_interval (initState day0) [demoReqAI] [] demoReqAI [] rfl rfl

/-- C2, counterexample: at a fresh state the spacing and quota gate admits
the Gemini call, the call is attempted and rejects (transport error), yet
neither `dailyCallCount` nor `lastGeminiCall` is updated — the failed call
consumes no quota, contradicting the claim that quota is recorded
regardless of transport errors. -/
theorem quota_transport_counterexample :
    (stepReq (initState day0) demoReqTransport).aiCalled = true ∧
    (stepReq (initState day0) demoReqTransport).state.dailyCallCount = 0 ∧
    (stepReq (initState day0) demoReqTransport).state.lastGeminiCall = 0 ∧
    (initState day0).dailyCallCount = 0 ∧
    (initState day0).lastGeminiCall = 0 :=
  ⟨rfl, rfl, rfl, rfl, rfl⟩

/-- C2, amended: quota is recorded (counter incremented, spacing timer set
to `now`) exactly when the permitted Gemini invocation resolves to a
response — including an unparseable one; when the invocation rejects with a
transport-level error, the catch block falls back to the rule-based engine
and records nothing. -/
theorem quota_recorded_iff_response (s : ServiceState) (r : Req)
    (hcall : (stepReq s r).aiCalled = true) :
    (∀ text, r.ai = AIOutcome.response text →
      (stepReq s r).state.dailyCallCount
        = (resetDailyCounterIfNeeded s r.today).dailyCallCount + 1 ∧
      (stepReq s r).state.lastGeminiCall = r.now) ∧
    (r.ai = AIOutcome.transportError →
      (stepReq s r).state.dailyCallCount
        = (resetDailyCounterIfNeeded s r.today).dailyCallCount ∧
      (stepReq s r).state.lastGeminiCall = s.lastGeminiCall) := by
  rcases stepReq_spec s r with ⟨d, _, heq⟩ |
      ⟨_, _, ⟨text, hai, heq⟩ | ⟨hai, heq⟩⟩ | ⟨_, _, heq⟩
  · rw [heq] at hcall
    simp at hcall
  · constructor
    · intro text' hai'
      rw [hai] at hai'
      cases hai'
      rw [heq]
      exact ⟨rfl, rfl⟩
    · intro hErr
      rw [hai] at hErr
      cases hErr
  · constructor
    · intro text' hai'
      rw [hai] at hai'
      cases hai'
    · intro _
      rw [heq]
      exact ⟨rfl, (reset_fields s r.today).2.2.2.1⟩
  · rw [heq] at hcall
    simp at hcall

/-- Witness for the amended C2 at a concrete permitted response call. -/
theorem quota_recorded_iff_response_witness :
    (stepReq (initState day0) demoReqAI).state.dailyCallCount
        = (resetDailyCounterIfNeeded (initState day0) demoReqAI.today).dailyCallCount + 1 ∧
    (stepReq (initState day0) demoReqAI).state.lastGeminiCall = demoReqAI.now :=
  (quota_recorded_iff_response (initState day0) demoReqAI rfl).1 "xyz" rfl

/-- C3: if a first call finds no valid cache entry for its
`(organType, metrics)` fingerprint, then any later call with the identical
arguments made while the stored entry is still inside the one-hour validity
window (and with only clock-bounded calls in between) returns the identical
diagnosis object from the cache, issues no AI call, and consumes no quota. -/
theorem cache_idempotent (s : ServiceState) (r1 r2 : Req) (mid : List Req)
    (hsameM : r2.metrics = r1.metrics) (hsameO : r2.organType = r1.organType)
    (hmiss : cacheLookup (resetDailyCounterIfNeeded s r1.today) (reqKey r1)
      r1.now = none)
    (hwindow : r2.now - r1.now < s.cacheExpiry)
    (hmid : ∀ r ∈ mid, r.now ≤ r2.now) :
    (stepReq (runSeq (stepReq s r1).state mid) r2).result
        = (stepReq s r1).result ∧
    (stepReq (runSeq (stepReq s r1).state mid) r2).aiCalled = false ∧
    (stepReq (runSeq (stepReq s r1).state mid) r2).state.dailyCallCount
        ≤ (runSeq (stepReq s r1).state mid).dailyCallCount ∧
    (stepReq (runSeq (stepReq s r1).state mid) r2).state.lastGeminiCall
        = (runSeq (stepReq s r1).state mid).lastGeminiCall ∧
    (stepReq (runSeq (stepReq s r1).state mid) r2).state.diagnosisCache
        = (runSeq (stepReq s r1).state mid).diagnosisCache := by
  have hkey : reqKey r2 = reqKey r1 := by
    unfold reqKey
    rw [hsameM, hsameO]
  have hentry1 := stepReq_cache_after_miss s r1 hmiss
  have hexp1 : (stepReq s r1).state.cacheExpiry = s.cacheExpiry :=
    (stepReq_const s r1).2.2.1
  have hentry2 : mapGet (runSeq (stepReq s r1).state mid).diagnosisCache
      (reqKey r1) = some ⟨(stepReq s r1).result, r1.now⟩ := by
    apply runSeq_cache_stable _ mid _ _ hentry1
    intro r hr
    rw [hexp1]
    show r.now - r1.now < s.cacheExpiry
    have := hmid r hr
    omega
  have hexp2 : (runSeq (stepReq s r1).state mid).cacheExpiry = s.cacheExpiry :=
    (runSeq_const _ mid).2.2.trans hexp1
  have hf2 := reset_fields (runSeq (stepReq s r1).state mid) r2.today
  have hhit : cacheLookup
      (resetDailyCounterIfNeeded (runSeq (stepReq s r1).state mid) r2.today)
      (reqKey r2) r2.now = some (stepReq s r1).result := by
    unfold cacheLookup
    rw [hf2.2.2.2.2, hkey, hentry2, hf2.2.2.1, hexp2]
    simp [hwindow]
  have hstep2 := stepReq_of_hit _ r2 _ hhit
  rw [hstep2]
  exact ⟨rfl, rfl, reset_count_le _ r2.today, hf2.2.2.2.1, hf2.2.2.2.2⟩

/-- Witness for C3: a denied first call at `t = 0` stores its rule-based
result; the repeat call one second later is served from the cache. -/
theorem cache_idempotent_witness :
    (stepReq (runSeq (stepReq (initState day0) demoReqEarly).state [])
        demoReqRepeat).result
      = (stepReq (initState day0) demoReqEarly).result ∧
    (stepReq (runSeq (stepReq (initState day0) demoReqEarly).state [])
        demoReqRepeat).aiCalled = false := by
  have h := cache_idempotent (initState day0) demoReqEarly demoReqRepeat []
    rfl rfl rfl (by decide) (by intro r hr; exact absurd hr (List.not_mem_nil r))
  exact ⟨h.1, h.2.1⟩

/-- C5: on the rule-based paths (quota/rate denial, transport fallback) and
on the parse-substitution path, `generateDiagnosis` returns — rather than
throwing — an object whose `status` is `INFLAMED` or `HEALTHY` and whose
`diagnosis` is a non-empty string (the model is a total function, so these
paths cannot raise). -/
theorem diag_result_wellformed (s : ServiceState) (r : Req)
    (hpath : (stepReq s r).path = DiagPath.ruleQuotaDenied ∨
      (stepReq s r).path = DiagPath.ruleTransportFallback ∨
      (stepReq s r).path = DiagPath.aiSubstituted) :
    (mapGet (stepReq s r).result "status" = some (Json.str "INFLAMED") ∨
     mapGet (stepReq s r).result "status" = some (Json.str "HEALTHY")) ∧
    ∃ d, mapGet (stepReq s r).result "diagnosis" = some (Json.str d) ∧
      d ≠ "" := by
  rcases stepReq_spec s r with ⟨d, _, heq⟩ |
      ⟨_, _, ⟨text, hai, heq⟩ | ⟨_, heq⟩⟩ | ⟨_, _, heq⟩
  · rw [heq] at hpath
    simp at hpath
  · rw [heq] at hpath ⊢
    dsimp at hpath ⊢
    cases hcore : parseAIResponseCore text with
    | some fs =>
        rw [hcore] at hpath
        simp at hpath
    | none =>
        rw [parseAIResponse_of_none text r.organType hcore]
        refine ⟨Or.inl (by simp [fallbackDiagnosis, mapGet]),
          "Environmental stress detected in " ++ r.organType ++
            ". Immediate intervention required.",
          by simp [fallbackDiagnosis, mapGet], ?_⟩
        apply strNeEmpty_append
        apply strNeEmpty_append
        decide
  · rw [heq]
    exact ruleBased_wellformed r.metrics r.organType r.nowIso
  · rw [heq]
    exact ruleBased_wellformed r.metrics r.organType r.nowIso

/-- Witness for C5 at a concrete rate-denied call. -/
theorem diag_result_wellformed_witness :
    (mapGet (stepReq (initState day0) demoReqEarly).result "status"
        = some (Json.str "INFLAMED") ∨
     mapGet (stepReq (initState day0) demoReqEarly).result "status"
        = some (Json.str "HEALTHY")) ∧
    ∃ d, mapGet (stepReq (initState day0) demoReqEarly).result "diagnosis"
        = some (Json.str d) ∧ d ≠ "" :=
  diag_result_wellformed (initState day0) demoReqEarly (Or.inl rfl)

/-- C6, counterexample: two metrics objects holding the same field/value
pairs in different insertion orders produce different cache keys, because
`JSON.stringify` serializes fields in insertion order. -/
theorem cache_key_order_counterexample :
    permMetricsA.Perm permMetricsB ∧
    cacheKeyOf "Lungs" permMetricsA ≠ cacheKeyOf "Lungs" permMetricsB :=
  ⟨List.Perm.swap _ _ _, by decide⟩

/-- C6, amended: the fingerprint is the organ type concatenated with the
insertion-order `JSON.stringify` serialization of the metrics object, so it
is deterministic for identical objects but sensitive to field order: there
are permuted payloads that map to different keys. -/
theorem cache_key_insertion_order (org : String)
    (m1 m2 : List (String × Json)) (h : m1 = m2) :
    cacheKeyOf org m1 = cacheKeyOf org m2 ∧
    ∃ mA mB : List (String × Json), mA.Perm mB ∧
      cacheKeyOf org mA ≠ cacheKeyOf org mB := by
  refine ⟨by rw [h], permMetricsA, permMetricsB, List.Perm.swap _ _ _, ?_⟩
  unfold cacheKeyOf
  apply str_append_left_cancel
  decide

/-- Witness for the amended C6 at a concrete organ and payload. -/
theorem cache_key_insertion_order_witness :
    cacheKeyOf "Lungs" permMetricsA = cacheKeyOf "Lungs" permMetricsA ∧
    ∃ mA mB : List (String × Json), mA.Perm mB ∧
      cacheKeyOf "Lungs" mA ≠ cacheKeyOf "Lungs" mB :=
  cache_key_insertion_order "Lungs" permMetricsA permMetricsA rfl

/-- C7, counterexample: when the response text does contain a well-formed
JSON object but its status is not one of the two permitted values, the
client does not substitute the generic environmental-stress diagnosis — it
keeps the parsed diagnosis text and only forces the status to `INFLAMED`. -/
theorem ai_invalid_status_counterexample :
    parseAIResponseCore bogusStatusText
      = some [("diagnosis", Json.str "Coral stress"),
              ("status", Json.str "BOGUS")] ∧
    parseAIResponse bogusStatusText "Veins"
      = [("diagnosis", Json.str "Coral stress"),
         ("status", Json.str "INFLAMED")] ∧
    mapGet (parseAIResponse bogusStatusText "Veins") "diagnosis"
      ≠ some (Json.str ("Environmental stress detected in Veins. Immediate intervention required.")) := by
  refine ⟨rfl, rfl, ?_⟩
  intro hc
  rw [show mapGet (parseAIResponse bogusStatusText "Veins") "diagnosis"
      = some (Json.str "Coral stress") from rfl] at hc
  have h2 := Option.some.inj hc
  have h3 : "Coral stress"
      = "Environmental stress detected in Veins. Immediate intervention required." := by
    injection h2
  exact absurd h3 (by decide)

/-- C7, amended: when the brace extraction or `JSON.parse` of the raw
response fails, the client substitutes the generic environmental-stress
diagnosis with status `INFLAMED`; when an object is parsed but its status
is invalid, only the `status` field is overwritten with `INFLAMED` and the
parsed diagnosis text is kept; in every case the client returns (never
throws) and the resulting status is one of the two permitted values. -/
theorem ai_parse_handling :
    (∀ text organType, parseAIResponseCore text = none →
      parseAIResponse text organType = fallbackDiagnosis organType) ∧
    (∀ text organType fs, parseAIResponseCore text = some fs →
      parseAIResponse text organType
        = (if statusAllowed fs then fs
           else mapSet fs "status" (Json.str "INFLAMED"))) ∧
    (∀ text organType,
      mapGet (parseAIResponse text organType) "status"
          = some (Json.str "INFLAMED") ∨
      mapGet (parseAIResponse text organType) "status"
          = some (Json.str "HEALTHY")) := by
  refine ⟨parseAIResponse_of_none, ?_, ?_⟩
  · intro text organType fs h
    unfold parseAIResponse
    rw [h]
  · intro text organType
    unfold parseAIResponse
    cases hcore : parseAIResponseCore text with
    | none =>
        simp only []
        rw [statusAllowed_fallback]
        simp [fallbackDiagnosis, mapGet]
    | some fs =>
        simp only []
        by_cases hs : statusAllowed fs = true
        · rw [if_pos hs]
          unfold statusAllowed at hs
          cases hm : mapGet fs "status" with
          | none => rw [hm] at hs; cases hs
          | some v =>
              rw [hm] at hs
              cases v with
              | str sv =>
                  rcases Bool.or_eq_true_iff.mp hs with h1 | h1
                  · exact Or.inl (by rw [of_decide_eq_true h1])
                  · exact Or.inr (by rw [of_decide_eq_true h1])
              | null => cases hs
              | bool b => cases hs
              | num q => cases hs
              | arr xs => cases hs
              | obj fsx => cases hs
        · rw [if_neg hs]
          exact Or.inl (mapGet_mapSet_eq _ _ _)

/-- Witness for the amended C7 at a concrete brace-free response. -/
theorem ai_parse_handling_witness :
    parseAIResponse "xyz" "Lungs" = fallbackDiagnosis "Lungs" :=
  ai_parse_handling.1 "xyz" "Lungs" rfl

/-- Dispatch of the rule engine for the Lungs organ type. -/
theorem ruleBased_lungs_eq (metrics : List (String × Json)) (iso : String) :
    generateRuleBasedDiagnosis metrics "Lungs" iso
      = lungsDiagnosis metrics iso := rfl

/-- C8: the Lungs thresholds are evaluated most-severe first —
`alertCount > 1000` gives CRITICAL/INFLAMED, then `> 500` HIGH/INFLAMED,
then `> 200` MODERATE/INFLAMED, otherwise HEALTHY. -/
theorem lungs_thresholds (metrics : List (String × Json)) (iso : String)
    (a : ℚ) (hget : mapGet metrics "alertCount" = some (Json.num a)) :
    (a > 1000 →
      mapGet (generateRuleBasedDiagnosis metrics "Lungs" iso) "severity"
          = some (Json.str "CRITICAL") ∧
      mapGet (generateRuleBasedDiagnosis metrics "Lungs" iso) "status"
          = some (Json.str "INFLAMED")) ∧
    (a > 500 ∧ a ≤ 1000 →
      mapGet (generateRuleBasedDiagnosis metrics "Lungs" iso) "severity"
          = some (Json.str "HIGH") ∧
      mapGet (generateRuleBasedDiagnosis metrics "Lungs" iso) "status"
          = some (Json.str "INFLAMED")) ∧
    (a > 200 ∧ a ≤ 500 →
      mapGet (generateRuleBasedDiagnosis metrics "Lungs" iso) "severity"
          = some (Json.str "MODERATE") ∧
      mapGet (generateRuleBasedDiagnosis metrics "Lungs" iso) "status"
          = some (Json.str "INFLAMED")) ∧
    (a ≤ 200 →
      mapGet (generateRuleBasedDiagnosis metrics "Lungs" iso) "status"
          = some (Json.str "HEALTHY")) := by
  have hv : jsOrNum (mapGet metrics "alertCount") 0
      = if a = 0 then 0 else a := by
    rw [hget]
    rfl
  refine ⟨?_, ?_, ?_, ?_⟩
  · intro h
    have ha0 : ¬ a = 0 := by
      intro h0
      rw [h0] at h
      norm_num at h
    rw [ruleBased_lungs_eq]
    unfold lungsDiagnosis
    dsimp only
    rw [hv, if_neg ha0, if_pos h]
    exact ⟨ruleResult_get_severity _ _ _ _, ruleResult_get_status _ _ _ _⟩
  · rintro ⟨h1, h2⟩
    have ha0 : ¬ a = 0 := by
      intro h0
      rw [h0] at h1
      norm_num at h1
    rw [ruleBased_lungs_eq]
    unfold lungsDiagnosis
    dsimp only
    rw [hv, if_neg ha0, if_neg (not_lt.mpr h2), if_pos h1]
    exact ⟨ruleResult_get_severity _ _ _ _, ruleResult_get_status _ _ _ _⟩
  · rintro ⟨h1, h2⟩
    have ha0 : ¬ a = 0 := by
      intro h0
      rw [h0] at h1
      norm_num at h1
    rw [ruleBased_lungs_eq]
    unfold lungsDiagnosis
    dsimp only
    rw [hv, if_neg ha0, if_neg (not_lt.mpr (by linarith : a ≤ 1000)),
      if_neg (not_lt.mpr h2), if_pos h1]
    exact ⟨ruleResult_get_severity _ _ _ _, ruleResult_get_status _ _ _ _⟩
  · intro h
    rw [ruleBased_lungs_eq]
    unfold lungsDiagnosis
    dsimp only
    rw [hv]
    by_cases ha0 : a = 0
    · rw [if_pos ha0, if_neg (by norm_num), if_neg (by norm_num),
        if_neg (by norm_num)]
      exact ruleResult_get_status _ _ _ _
    · rw [if_neg ha0, if_neg (not_lt.mpr (by linarith : a ≤ 1000)),
        if_neg (not_lt.mpr (by linarith : a ≤ 500)), if_neg (not_lt.mpr h)]
      exact ruleResult_get_status _ _ _ _

/-- Witness for C8: alert counts 1500 and 50. -/
theorem lungs_thresholds_witness :
    (mapGet (generateRuleBasedDiagnosis demoMetrics "Lungs" "iso") "severity"
        = some (Json.str "CRITICAL") ∧
     mapGet (generateRuleBasedDiagnosis demoMetrics "Lungs" "iso") "status"
        = some (Json.str "INFLAMED")) ∧
    mapGet (generateRuleBasedDiagnosis lowAlertMetrics "Lungs" "iso") "status"
        = some (Json.str "HEALTHY") :=
  ⟨(lungs_thresholds demoMetrics "iso" (mkRat 1500 1) rfl).1 (by decide),
   (lungs_thresholds lowAlertMetrics "iso" (mkRat 50 1) rfl).2.2.2 (by decide)⟩

/-- C9, counterexample: the rule-based engine always returns five fields
(diagnosis, status, severity, source, timestamp), but the AI client path of
`generateDiagnosis` here returns only two (diagnosis, status) — the caller
can distinguish provenance by shape. -/
theorem provenance_shape_counterexample :
    (generateRuleBasedDiagnosis demoMetrics "Lungs" "iso").map Prod.fst
      = ["diagnosis", "status", "severity", "source", "timestamp"] ∧
    (stepReq (initState day0) demoReqAI).aiCalled = true ∧
    (stepReq (initState day0) demoReqAI).result.map Prod.fst
      = ["diagnosis", "status"] ∧
    (generateRuleBasedDiagnosis demoMetrics "Lungs" "iso").map Prod.fst
      ≠ (stepReq (initState day0) demoReqAI).result.map Prod.fst :=
  ⟨rfl, rfl, rfl, by decide⟩

/-- C9, amended: the rule-based result always carries exactly the five keys
`diagnosis, status, severity, source, timestamp`, while the AI path's
substitution object carries exactly `diagnosis, status` (and a parsed AI
object carries whatever keys the provider returned); the two fixed shapes
are not equal, so the output shapes are not structurally identical. -/
theorem provenance_shape_fields (metrics : List (String × Json))
    (org iso : String) :
    (generateRuleBasedDiagnosis metrics org iso).map Prod.fst
      = ["diagnosis", "status", "severity", "source", "timestamp"] ∧
    (fallbackDiagnosis org).map Prod.fst = ["diagnosis", "status"] ∧
    (generateRuleBasedDiagnosis metrics org iso).map Prod.fst
      ≠ (fallbackDiagnosis org).map Prod.fst := by
  refine ⟨ruleBased_keys metrics org iso, rfl, ?_⟩
  rw [ruleBased_keys metrics org iso,
    show (fallbackDiagnosis org).map Prod.fst = ["diagnosis", "status"]
      from rfl]
  decide

/-- The Veins health-score formula of `performDiagnosticScan`, on a payload
whose `pH` field is a truthy number. -/
theorem computeHealthScore_veins (organHS : ℚ)
    (metrics : List (String × Json)) (pH : ℚ)
    (hget : mapGet metrics "pH" = some (Json.num pH)) (hne : pH ≠ 0) :
    computeHealthScore "Veins" organHS metrics
      = min 100 ((pH - mkRat 75 10) * 200) := by
  have h1 : ¬("Veins" = "Lungs" ∧
      jsTruthy (mapGet metrics "alertCount") = true) := by
    rintro ⟨h, _⟩
    exact absurd h (by decide)
  have h2 : ("Veins" = "Veins" ∧ jsTruthy (mapGet metrics "pH") = true) :=
    ⟨rfl, by rw [hget]; simp [jsTruthy, hne]⟩
  unfold computeHealthScore
  rw [if_neg h1, if_pos h2, hget]
  dsimp [numValOr0]
  rw [ratSub_eq, ratMul_eq]

/-- C10, counterexample: for pH 7.499 (a number strictly below 7.5, and
truthy), `performDiagnosticScan` returns health score 0 — `Math.round`
sends `min(100, (pH - 7.5) * 200) = -0.2` to `0`, so the returned score is
not strictly negative. -/
theorem veins_score_counterexample :
    mkRat 7499 1000 < mkRat 75 10 ∧
    jsTruthy (mapGet borderlinePH "pH") = true ∧
    ∃ p, performDiagnosticScan (initState day0) "Veins" 42 borderlinePH 0
        day0 "iso" AIOutcome.transportError = Except.ok p ∧
      p.1.healthScore = 0 ∧ ¬ p.1.healthScore < 0 :=
  ⟨by decide, rfl, _, rfl, rfl, by decide⟩

/-- C10, amended: for every Veins payload whose `pH` field is a nonzero
number strictly below 7.4975 (= 7.5 - 1/400), `performDiagnosticScan`
returns a strictly negative rounded health score — the formula
`min(100, (pH - 7.5) * 200)` has no lower clamp — violating the organ
schema's `min: 0` bound; pH values in [7.4975, 7.5) round to 0, and a zero
pH field is falsy, which skips the formula entirely. -/
theorem veins_score_negative (s : ServiceState) (organHS : ℚ)
    (metrics : List (String × Json)) (pH : ℚ) (now : Int)
    (today iso : String) (ai : AIOutcome)
    (hget : mapGet metrics "pH" = some (Json.num pH)) (hne : pH ≠ 0)
    (hlt : pH < mkRat 2999 400) :
    ∃ p, performDiagnosticScan s "Veins" organHS metrics now today iso ai
        = Except.ok p ∧
      p.1.healthScore < 0 ∧ ¬ organHealthScoreValid p.1.healthScore := by
  have hchs := computeHealthScore_veins organHS metrics pH hget hne
  have hlt' : pH < (2999 : ℚ) / 400 := by
    have hcast : (mkRat 2999 400 : ℚ) = (2999 : ℚ) / 400 := by
      rw [Rat.mkRat_eq_div]
      norm_num
    rwa [hcast] at hlt
  have h75 : (mkRat 75 10 : ℚ) = 75 / 10 := by
    rw [Rat.mkRat_eq_div]
    norm_num
  have hneg : jsRound (computeHealthScore "Veins" organHS metrics) < 0 := by
    rw [hchs, jsRound_eq_floor]
    have hm : min (100 : ℚ) ((pH - mkRat 75 10) * 200)
        ≤ (pH - mkRat 75 10) * 200 := min_le_right _ _
    rw [h75] at hm
    refine Int.floor_lt.mpr ?_
    push_cast
    rw [h75]
    linarith
  have hok : ("Veins" = "Lungs" ∨ "Veins" = "Veins" ∨ "Veins" = "Skin") :=
    Or.inr (Or.inl rfl)
  unfold performDiagnosticScan
  rw [if_pos hok]
  exact ⟨_, rfl, hneg, fun hvalid => absurd hneg (not_lt.mpr hvalid.1)⟩

/-- Witness for the amended C10: pH 7.0 yields health score -100. -/
theorem veins_score_negative_witness :
    ∃ p, performDiagnosticScan (initState day0) "Veins" 42 acidPH 0 day0
        "iso" AIOutcome.transportError = Except.ok p ∧
      p.1.healthScore < 0 ∧ ¬ organHealthScoreValid p.1.healthScore :=
  veins_score_negative (initState day0) 42 acidPH (mkRat 7 1) 0 day0 "iso"
    AIOutcome.transportError rfl (by decide) (by decide)

